import Mathlib

/-!
Verification of the account ledger model of GnawTreeWriter's example
sources (`src/examples/example.cpp`, `src/examples/example.c`).

The C++ side is a class hierarchy `Account` / `SavingsAccount` /
`CheckingAccount`; methods mutate `balance_` in place, which we embed
as pure state-passing functions on structures.  Currency amounts are
`double` in the source; we model the arithmetic exactly with `ℚ`
(the guard logic and the balance updates are the subject of the spec,
not floating-point rounding).  Names are character sequences, embedded
as `List Char`.

The C side is a struct `Account` with a `create_account` allocator and
a process-wide `static int account_counter`; we embed the allocator as
a function from an allocation-success flag and the current counter to
an optional account and the new counter.
-/

/-- C++ `banking::Account` (example.cpp lines 12-56): protected fields
`id_`, `name_`, `balance_`; the constructor sets `balance_` to `0.0`. -/
structure Account where
  id_ : Int
  name_ : List Char
  balance_ : ℚ
deriving DecidableEq

/-- C++ `Account::Account(int id, const std::string& name)`:
stores `id` and `name` unchanged, balance starts at zero. -/
def Account.create (id : Int) (name : List Char) : Account :=
  { id_ := id, name_ := name, balance_ := 0 }

/-- C++ `Account::deposit` (lines 32-36):
`if (amount > 0) { balance_ += amount; }`. -/
def Account.deposit (acc : Account) (amount : ℚ) : Account :=
  if amount > 0 then { acc with balance_ := acc.balance_ + amount } else acc

/-- C++ `Account::withdraw` (lines 38-42):
`if (amount > 0 && balance_ >= amount) { balance_ -= amount; }`. -/
def Account.withdraw (acc : Account) (amount : ℚ) : Account :=
  if amount > 0 ∧ acc.balance_ ≥ amount then
    { acc with balance_ := acc.balance_ - amount }
  else acc

/-- C++ `banking::SavingsAccount` (lines 59-74): adds `interestRate_`. -/
structure SavingsAccount extends Account where
  interestRate_ : ℚ
deriving DecidableEq

/-- C++ `SavingsAccount::SavingsAccount(int, const std::string&, double)`. -/
def SavingsAccount.create (id : Int) (name : List Char) (rate : ℚ) : SavingsAccount :=
  { toAccount := Account.create id name, interestRate_ := rate }

/-- `SavingsAccount` does not override `deposit`; virtual dispatch lands in
`Account::deposit` acting on the embedded base state. -/
def SavingsAccount.deposit (acc : SavingsAccount) (amount : ℚ) : SavingsAccount :=
  { acc with toAccount := acc.toAccount.deposit amount }

/-- `SavingsAccount` does not override `withdraw`; dispatch lands in
`Account::withdraw` acting on the embedded base state. -/
def SavingsAccount.withdraw (acc : SavingsAccount) (amount : ℚ) : SavingsAccount :=
  { acc with toAccount := acc.toAccount.withdraw amount }

/-- C++ `SavingsAccount::applyInterest` (lines 67-69):
`balance_ += balance_ * interestRate_;` unconditionally. -/
def SavingsAccount.applyInterest (acc : SavingsAccount) : SavingsAccount :=
  { acc with balance_ := acc.balance_ + acc.balance_ * acc.interestRate_ }

/-- C++ `SavingsAccount::getAccountType` (lines 71-73). -/
def SavingsAccount.getAccountType (_ : SavingsAccount) : String :=
  "Savings"

/-- C++ `banking::CheckingAccount` (lines 77-94): adds `overdraftLimit_`. -/
structure CheckingAccount extends Account where
  overdraftLimit_ : ℚ
deriving DecidableEq

/-- C++ `CheckingAccount::CheckingAccount(int, const std::string&, double)`. -/
def CheckingAccount.create (id : Int) (name : List Char) (limit : ℚ) : CheckingAccount :=
  { toAccount := Account.create id name, overdraftLimit_ := limit }

/-- `CheckingAccount` does not override `deposit`; dispatch lands in
`Account::deposit` acting on the embedded base state. -/
def CheckingAccount.deposit (acc : CheckingAccount) (amount : ℚ) : CheckingAccount :=
  { acc with toAccount := acc.toAccount.deposit amount }

/-- C++ `CheckingAccount::withdraw` override (lines 85-89):
`if (amount > 0 && (balance_ + overdraftLimit_) >= amount) { balance_ -= amount; }`. -/
def CheckingAccount.withdraw (acc : CheckingAccount) (amount : ℚ) : CheckingAccount :=
  if amount > 0 ∧ acc.balance_ + acc.overdraftLimit_ ≥ amount then
    { acc with balance_ := acc.balance_ - amount }
  else acc

/-- C++ `CheckingAccount::getAccountType` (lines 91-93). -/
def CheckingAccount.getAccountType (_ : CheckingAccount) : String :=
  "Checking"

/-- A balance-mutating operation a caller may invoke on a checking
account (the capability set of the variant, minus the read-only
accessors). -/
inductive COp where
  | deposit : ℚ → COp
  | withdraw : ℚ → COp
deriving DecidableEq

/-- Dispatch one operation on a `CheckingAccount` (virtual dispatch:
`deposit` is `Account::deposit`, `withdraw` is the override). -/
def CheckingAccount.applyOp (acc : CheckingAccount) : COp → CheckingAccount
  | COp.deposit a => acc.deposit a
  | COp.withdraw a => acc.withdraw a

/-- Run a finite sequence of deposit/withdraw operations. -/
def CheckingAccount.runOps (acc : CheckingAccount) (ops : List COp) : CheckingAccount :=
  ops.foldl CheckingAccount.applyOp acc

/-- C `Account` struct (example.c lines 10-14): `int id; char name[50];
float balance;`.  The stored name is the character sequence up to the
first NUL of the 50-byte buffer. -/
structure CAccount where
  id : Int
  name : List Char
  balance : ℚ
deriving DecidableEq

/-- `sizeof(acc->name)` in example.c: the name buffer holds 50 bytes. -/
def nameBufSize : Nat := 50

/-- C `create_account` (example.c lines 30-43).  `allocOk` models whether
`malloc` succeeds; `account_counter` is the global counter before the
call.  On allocation failure the function returns `NULL` before touching
the counter.  On success, `strncpy(acc->name, name, sizeof(acc->name)-1)`
followed by `acc->name[sizeof(acc->name)-1] = '\0'` stores the first
`49` characters of `name`; the balance is set to `0.0`; then
`account_counter++`. -/
def create_account (allocOk : Bool) (id : Int) (name : List Char)
    (account_counter : Nat) : Option CAccount × Nat :=
  if allocOk then
    (some { id := id, name := name.take (nameBufSize - 1), balance := 0 },
     account_counter + 1)
  else
    (none, account_counter)

/-- A single-threaded sequence of successful account creations
(example.c `main` style): each request carries the caller-supplied id
and name; the result is the final `account_counter`. -/
def runCreations (reqs : List (Int × List Char)) (counter : Nat) : Nat :=
  reqs.foldl (fun c r => (create_account true r.1 r.2 c).2) counter

/-- C4: `applyInterest()` on a savings account with balance `B` and rate
`r` unconditionally sets the balance to `B * (1 + r)`; a second call
compounds to `B * (1 + r)^2` (never a no-op on repeat calls). -/
theorem applyInterest_correct (s : SavingsAccount) :
    s.applyInterest.balance_ = s.balance_ * (1 + s.interestRate_) ∧
    s.applyInterest.applyInterest.balance_ = s.balance_ * (1 + s.interestRate_) ^ 2 := by
  unfold SavingsAccount.applyInterest
  refine ⟨by ring, ?_⟩
  simp only
  ring

/-! ### Projection helpers for structure updates -/

lemma account_set_balance (acc : Account) (x : ℚ) :
    ({ acc with balance_ := x } : Account).balance_ = x := rfl

lemma checking_set_balance (c : CheckingAccount) (x : ℚ) :
    ({ c with balance_ := x } : CheckingAccount).balance_ = x := rfl

lemma checking_set_balance_limit (c : CheckingAccount) (x : ℚ) :
    ({ c with balance_ := x } : CheckingAccount).overdraftLimit_ = c.overdraftLimit_ := rfl

lemma savings_deposit_balance (s : SavingsAccount) (a : ℚ) :
    (s.deposit a).balance_ = (s.toAccount.deposit a).balance_ := rfl

lemma savings_withdraw_balance (s : SavingsAccount) (a : ℚ) :
    (s.withdraw a).balance_ = (s.toAccount.withdraw a).balance_ := rfl

lemma checking_deposit_balance (c : CheckingAccount) (a : ℚ) :
    (c.deposit a).balance_ = (c.toAccount.deposit a).balance_ := rfl

/-- Behaviour of the base-class withdraw, split on the guard. -/
lemma account_withdraw_spec (acc : Account) (a : ℚ) :
    (0 < a ∧ a ≤ acc.balance_ → (acc.withdraw a).balance_ = acc.balance_ - a) ∧
    (¬ (0 < a ∧ a ≤ acc.balance_) → (acc.withdraw a).balance_ = acc.balance_) := by
  unfold Account.withdraw
  by_cases h : a > 0 ∧ acc.balance_ ≥ a
  · rw [if_pos h]
    exact ⟨fun _ => rfl, fun hn => absurd ⟨h.1, h.2⟩ hn⟩
  · rw [if_neg h]
    exact ⟨fun hg => absurd ⟨hg.1, hg.2⟩ h, fun _ => rfl⟩

/-- Behaviour of the base-class deposit, split on the guard. -/
lemma account_deposit_spec (acc : Account) (a : ℚ) :
    (0 < a → (acc.deposit a).balance_ = acc.balance_ + a) ∧
    (a ≤ 0 → (acc.deposit a).balance_ = acc.balance_) := by
  unfold Account.deposit
  by_cases h : a > 0
  · rw [if_pos h]
    exact ⟨fun _ => rfl, fun hle => absurd h (by simpa using hle)⟩
  · rw [if_neg h]
    exact ⟨fun hp => absurd hp h, fun _ => rfl⟩

/-- Behaviour of the checking-account withdraw override, split on the
guard, together with preservation of the overdraft limit. -/
lemma checking_withdraw_cases (c : CheckingAccount) (a : ℚ) :
    ((0 < a ∧ a ≤ c.balance_ + c.overdraftLimit_) →
      (c.withdraw a).balance_ = c.balance_ - a) ∧
    (¬ (0 < a ∧ a ≤ c.balance_ + c.overdraftLimit_) →
      (c.withdraw a).balance_ = c.balance_) ∧
    (c.withdraw a).overdraftLimit_ = c.overdraftLimit_ := by
  unfold CheckingAccount.withdraw
  by_cases h : a > 0 ∧ c.balance_ + c.overdraftLimit_ ≥ a
  · rw [if_pos h]
    exact ⟨fun _ => rfl, fun hn => absurd ⟨h.1, h.2⟩ hn, rfl⟩
  · rw [if_neg h]
    exact ⟨fun hg => absurd ⟨hg.1, hg.2⟩ h, fun _ => rfl, rfl⟩

/-- C1: checking-account withdrawal: the balance genuinely decreases by
exactly `a` iff `a > 0` and `B + L ≥ a`; in every other case the balance
is unchanged; the result stays at or above `-L` whenever the starting
balance does (so it may go negative, but only down to `-L`). -/
theorem checking_withdraw_correct (c : CheckingAccount) (a : ℚ) :
    (((c.withdraw a).balance_ = c.balance_ - a ∧ (c.withdraw a).balance_ ≠ c.balance_) ↔
      (0 < a ∧ a ≤ c.balance_ + c.overdraftLimit_)) ∧
    (¬ (0 < a ∧ a ≤ c.balance_ + c.overdraftLimit_) →
      (c.withdraw a).balance_ = c.balance_) ∧
    (-c.overdraftLimit_ ≤ c.balance_ → -c.overdraftLimit_ ≤ (c.withdraw a).balance_) := by
  have hc := checking_withdraw_cases c a
  by_cases h : 0 < a ∧ a ≤ c.balance_ + c.overdraftLimit_
  · have heq := hc.1 h
    refine ⟨⟨fun _ => h, fun _ => ⟨heq, ?_⟩⟩, fun hn => absurd h hn, fun h3 => ?_⟩
    · rw [heq]
      intro hcon
      have ha : a = 0 := by linarith
      exact absurd ha (ne_of_gt h.1)
    · rw [heq]
      have h2 := h.2
      linarith
  · have heq := hc.2.1 h
    refine ⟨⟨fun hx => absurd heq hx.2, fun hg => absurd hg h⟩, fun _ => heq, fun h3 => ?_⟩
    rw [heq]
    exact h3

/-- C1 witness: Bob's checking account (limit 500) after depositing 500
and withdrawing 800 holds exactly -300, which is within the overdraft. -/
theorem checking_withdraw_correct_witness :
    ((((CheckingAccount.create 2 ['B','o','b'] 500).deposit 500).withdraw 800).balance_
        = -300) ∧
    (-((CheckingAccount.create 2 ['B','o','b'] 500).deposit 500).overdraftLimit_ ≤
      (((CheckingAccount.create 2 ['B','o','b'] 500).deposit 500).withdraw 800).balance_) := by
  have h := checking_withdraw_correct
    ((CheckingAccount.create 2 ['B','o','b'] 500).deposit 500) 800
  have hb : ((CheckingAccount.create 2 ['B','o','b'] 500).deposit 500).balance_ = 500 := by
    norm_num [CheckingAccount.deposit, Account.deposit, CheckingAccount.create, Account.create]
  have hL : ((CheckingAccount.create 2 ['B','o','b'] 500).deposit 500).overdraftLimit_ = 500 :=
    rfl
  have hkey := ((h.1).mpr ⟨by norm_num, by rw [hb, hL]; norm_num⟩).1
  refine ⟨?_, h.2.2 (by rw [hb, hL]; norm_num)⟩
  rw [hkey, hb]
  norm_num

/-- C2: savings-account withdrawal: the balance genuinely decreases by
exactly `a` iff `a > 0` and `B ≥ a`; in every other case the balance is
unchanged (silent no-op). -/
theorem savings_withdraw_correct (s : SavingsAccount) (a : ℚ) :
    (((s.withdraw a).balance_ = s.balance_ - a ∧ (s.withdraw a).balance_ ≠ s.balance_) ↔
      (0 < a ∧ a ≤ s.balance_)) ∧
    (¬ (0 < a ∧ a ≤ s.balance_) → (s.withdraw a).balance_ = s.balance_) := by
  have hacc := account_withdraw_spec s.toAccount a
  by_cases h : 0 < a ∧ a ≤ s.balance_
  · have heq : (s.withdraw a).balance_ = s.balance_ - a := by
      rw [savings_withdraw_balance]
      exact hacc.1 h
    refine ⟨⟨fun _ => h, fun _ => ⟨heq, ?_⟩⟩, fun hn => absurd h hn⟩
    rw [heq]
    intro hcon
    have ha : a = 0 := by linarith
    exact absurd ha (ne_of_gt h.1)
  · have heq : (s.withdraw a).balance_ = s.balance_ := by
      rw [savings_withdraw_balance]
      exact hacc.2 h
    exact ⟨⟨fun hx => absurd heq hx.2, fun hg => absurd hg h⟩, fun _ => heq⟩

/-- C2 witness: Alice's savings account after depositing 1000 and
withdrawing 300 holds exactly 700; withdrawing 2000 from the result is
a no-op. -/
theorem savings_withdraw_correct_witness :
    ((((SavingsAccount.create 1 ['A','l','i','c','e'] (1/20)).deposit 1000).withdraw 300).balance_
        = 700) ∧
    (((((SavingsAccount.create 1 ['A','l','i','c','e'] (1/20)).deposit 1000).withdraw 300).withdraw 2000).balance_
        = ((((SavingsAccount.create 1 ['A','l','i','c','e'] (1/20)).deposit 1000).withdraw 300)).balance_) := by
  have h := savings_withdraw_correct
    ((SavingsAccount.create 1 ['A','l','i','c','e'] (1/20)).deposit 1000) 300
  have hb : ((SavingsAccount.create 1 ['A','l','i','c','e'] (1/20)).deposit 1000).balance_
      = 1000 := by
    norm_num [SavingsAccount.deposit, Account.deposit, SavingsAccount.create, Account.create]
  have hkey := ((h.1).mpr ⟨by norm_num, by rw [hb]; norm_num⟩).1
  constructor
  · rw [hkey, hb]; norm_num
  · have h2 := savings_withdraw_correct
      (((SavingsAccount.create 1 ['A','l','i','c','e'] (1/20)).deposit 1000).withdraw 300) 2000
    refine h2.2 ?_
    rw [hkey, hb]
    norm_num

/-- C3: deposit on either variant adds `a` to the balance when `a > 0`
and leaves the balance unchanged (silent no-op) when `a ≤ 0`. -/
theorem deposit_correct (s : SavingsAccount) (c : CheckingAccount) (a : ℚ) :
    (0 < a → (s.deposit a).balance_ = s.balance_ + a ∧
             (c.deposit a).balance_ = c.balance_ + a) ∧
    (a ≤ 0 → (s.deposit a).balance_ = s.balance_ ∧
             (c.deposit a).balance_ = c.balance_) := by
  have hs := account_deposit_spec s.toAccount a
  have hc := account_deposit_spec c.toAccount a
  constructor
  · intro hp
    rw [savings_deposit_balance, checking_deposit_balance]
    exact ⟨hs.1 hp, hc.1 hp⟩
  · intro hle
    rw [savings_deposit_balance, checking_deposit_balance]
    exact ⟨hs.2 hle, hc.2 hle⟩

/-- C3 witness: depositing 1000 into a fresh savings account yields 1000;
depositing -5 into a fresh checking account leaves the balance at 0. -/
theorem deposit_correct_witness :
    (((SavingsAccount.create 1 ['A','l','i','c','e'] (1/20)).deposit 1000).balance_ = 1000) ∧
    (((CheckingAccount.create 2 ['B','o','b'] 500).deposit (-5)).balance_ = 0) := by
  have h1 := deposit_correct (SavingsAccount.create 1 ['A','l','i','c','e'] (1/20))
    (CheckingAccount.create 2 ['B','o','b'] 500) 1000
  have h2 := deposit_correct (SavingsAccount.create 1 ['A','l','i','c','e'] (1/20))
    (CheckingAccount.create 2 ['B','o','b'] 500) (-5)
  constructor
  · rw [(h1.1 (by norm_num)).1]
    show (0 : ℚ) + 1000 = 1000
    norm_num
  · rw [(h2.2 (by norm_num)).2]
    rfl

/-! ### Overdraft invariant over operation sequences -/

lemma runOps_cons (c : CheckingAccount) (op : COp) (rest : List COp) :
    c.runOps (op :: rest) = (c.applyOp op).runOps rest := rfl

/-- A single dispatched operation keeps the balance at or above
`-overdraftLimit_` and leaves the limit itself untouched. -/
lemma applyOp_inv (c : CheckingAccount) (op : COp)
    (h : -c.overdraftLimit_ ≤ c.balance_) :
    -(c.applyOp op).overdraftLimit_ ≤ (c.applyOp op).balance_ ∧
    (c.applyOp op).overdraftLimit_ = c.overdraftLimit_ := by
  cases op with
  | deposit a =>
    have hd := account_deposit_spec c.toAccount a
    have hlim : (c.deposit a).overdraftLimit_ = c.overdraftLimit_ := rfl
    simp only [CheckingAccount.applyOp]
    refine ⟨?_, hlim⟩
    rw [hlim, checking_deposit_balance]
    by_cases hp : 0 < a
    · rw [hd.1 hp]
      have : (c.toAccount.balance_ : ℚ) = c.balance_ := rfl
      rw [this]
      linarith
    · rw [hd.2 (le_of_not_lt hp)]
      exact h
  | withdraw a =>
    have hw := checking_withdraw_cases c a
    simp only [CheckingAccount.applyOp]
    refine ⟨?_, hw.2.2⟩
    rw [hw.2.2]
    by_cases hg : 0 < a ∧ a ≤ c.balance_ + c.overdraftLimit_
    · rw [hw.1 hg]
      have h2 := hg.2
      linarith
    · rw [hw.2.1 hg]
      exact h

/-- The invariant `-overdraftLimit_ ≤ balance_` is preserved by every
finite operation sequence, and the limit never changes. -/
lemma runOps_inv (ops : List COp) :
    ∀ c : CheckingAccount, -c.overdraftLimit_ ≤ c.balance_ →
      -(c.runOps ops).overdraftLimit_ ≤ (c.runOps ops).balance_ ∧
      (c.runOps ops).overdraftLimit_ = c.overdraftLimit_ := by
  induction ops with
  | nil => exact fun c h => ⟨h, rfl⟩
  | cons op rest ih =>
    intro c h
    have hstep := applyOp_inv c op h
    have hr := ih (c.applyOp op) hstep.1
    rw [runOps_cons]
    exact ⟨hr.1, by rw [hr.2, hstep.2]⟩

/-- C5: a checking account created with overdraft limit `L ≥ 0` (balance
zero) never has a balance below `-L` after any finite sequence of deposit
and withdraw operations. -/
theorem checking_overdraft_invariant (id : Int) (name : List Char) (L : ℚ)
    (ops : List COp) (hL : 0 ≤ L) :
    -L ≤ ((CheckingAccount.create id name L).runOps ops).balance_ := by
  have h0 : -(CheckingAccount.create id name L).overdraftLimit_ ≤
      (CheckingAccount.create id name L).balance_ := by
    show -L ≤ (0 : ℚ)
    linarith
  have h := runOps_inv ops (CheckingAccount.create id name L) h0
  have h1 := h.1
  rw [h.2] at h1
  exact h1

/-- C5 witness: with limit 500, depositing 500 then withdrawing 800
leaves the balance (-300) at or above -500. -/
theorem checking_overdraft_invariant_witness :
    -(500 : ℚ) ≤ ((CheckingAccount.create 2 ['B','o','b'] 500).runOps
      [COp.deposit 500, COp.withdraw 800]).balance_ :=
  checking_overdraft_invariant 2 ['B','o','b'] 500
    [COp.deposit 500, COp.withdraw 800] (by norm_num)

/-! ### The creation counter and account ids -/

/-- C6 counterexample: two successive creations both supplying id 5 yield
two accounts whose ids are equal (both 5), so ids of created accounts are
neither pairwise distinct nor strictly increasing, and `account_counter`
does not prevent this. -/
theorem create_account_ids_counterexample :
    ((create_account true 5 ['A'] 0).1.map CAccount.id = some 5) ∧
    ((create_account true 5 ['B'] (create_account true 5 ['A'] 0).2).1.map CAccount.id
      = some 5) ∧
    ((create_account true 5 ['A'] 0).1.map CAccount.id =
      (create_account true 5 ['B'] (create_account true 5 ['A'] 0).2).1.map CAccount.id) := by
  exact ⟨rfl, rfl, rfl⟩

/-- C6 (amended): every created account carries exactly the
caller-supplied id (the C++ constructor likewise stores the id argument
unchanged); AccountCounter is advanced by one per successful creation
but does not issue, constrain, or deduplicate ids. -/
theorem account_id_caller_supplied (id : Int) (name : List Char) (ctr : Nat) :
    ((create_account true id name ctr).1.map CAccount.id = some id) ∧
    ((create_account true id name ctr).2 = ctr + 1) ∧
    ((Account.create id name).id_ = id) := by
  exact ⟨rfl, rfl, rfl⟩

lemma runCreations_add (reqs : List (Int × List Char)) :
    ∀ ctr : Nat, runCreations reqs ctr = ctr + reqs.length := by
  induction reqs with
  | nil =>
    intro ctr
    simp [runCreations]
  | cons r rest ih =>
    intro ctr
    show runCreations rest (ctr + 1) = ctr + (r :: rest).length
    rw [ih]
    simp
    omega

/-- C7: starting from the lazily-zero-initialized counter, a
single-threaded sequence of `N` successful creations leaves
`account_counter` at exactly `N`, and each single successful creation
advances the counter by exactly one. -/
theorem account_counter_counts_creations (reqs : List (Int × List Char))
    (id : Int) (name : List Char) (ctr : Nat) :
    (runCreations reqs 0 = reqs.length) ∧
    ((create_account true id name ctr).2 = ctr + 1) := by
  refine ⟨?_, rfl⟩
  rw [runCreations_add]
  omega

/-! ### Name truncation -/

/-- A 60-character name, used to exercise the truncation boundary. -/
def longName : List Char := List.replicate 60 'a'

/-- C8 counterexample: the C++ `Account` constructor stores a 60-character
name unchanged — more than 49 characters, with no truncation. -/
theorem cpp_name_not_truncated_counterexample :
    ((Account.create 7 longName).name_ = longName) ∧
    (49 < (Account.create 7 longName).name_.length) := by
  exact ⟨rfl, by decide⟩

/-- C8 (amended): the C `create_account` stores the supplied name
truncated to its first 49 characters (silently), so names of at most 49
characters are stored unchanged; the C++ `Account` constructor stores
the supplied name in full, without truncation. -/
theorem name_truncation_correct (id : Int) (name : List Char) (ctr : Nat) :
    ((create_account true id name ctr).1.map CAccount.name = some (name.take 49)) ∧
    (name.length ≤ 49 →
      (create_account true id name ctr).1.map CAccount.name = some name) ∧
    ((Account.create id name).name_ = name) := by
  refine ⟨rfl, ?_, rfl⟩
  intro h
  show some (name.take 49) = some name
  rw [List.take_of_length_le h]

/-- C8 witness: a four-character name is within the 49-character bound
and is stored unchanged by `create_account`. -/
theorem name_truncation_correct_witness :
    (['J','o','h','n'].length ≤ 49) ∧
    ((create_account true 1 ['J','o','h','n'] 0).1.map CAccount.name
      = some ['J','o','h','n']) :=
  ⟨by decide, (name_truncation_correct 1 ['J','o','h','n'] 0).2.1 (by decide)⟩

/-! ### Frame conditions -/

lemma account_deposit_frame (acc : Account) (a : ℚ) :
    (acc.deposit a).id_ = acc.id_ ∧ (acc.deposit a).name_ = acc.name_ := by
  unfold Account.deposit
  split <;> exact ⟨rfl, rfl⟩

lemma account_withdraw_frame (acc : Account) (a : ℚ) :
    (acc.withdraw a).id_ = acc.id_ ∧ (acc.withdraw a).name_ = acc.name_ := by
  unfold Account.withdraw
  split <;> exact ⟨rfl, rfl⟩

lemma checking_withdraw_frame (c : CheckingAccount) (a : ℚ) :
    (c.withdraw a).id_ = c.id_ ∧ (c.withdraw a).name_ = c.name_ ∧
    (c.withdraw a).overdraftLimit_ = c.overdraftLimit_ := by
  unfold CheckingAccount.withdraw
  split <;> exact ⟨rfl, rfl, rfl⟩

/-- C9: deposit, withdraw (both variants) and applyInterest touch only
the balance: id, name, interest rate and overdraft limit are unchanged
by every call. -/
theorem operations_frame (s : SavingsAccount) (c : CheckingAccount) (a : ℚ) :
    ((s.deposit a).id_ = s.id_ ∧ (s.deposit a).name_ = s.name_ ∧
      (s.deposit a).interestRate_ = s.interestRate_) ∧
    ((s.withdraw a).id_ = s.id_ ∧ (s.withdraw a).name_ = s.name_ ∧
      (s.withdraw a).interestRate_ = s.interestRate_) ∧
    (s.applyInterest.id_ = s.id_ ∧ s.applyInterest.name_ = s.name_ ∧
      s.applyInterest.interestRate_ = s.interestRate_) ∧
    ((c.deposit a).id_ = c.id_ ∧ (c.deposit a).name_ = c.name_ ∧
      (c.deposit a).overdraftLimit_ = c.overdraftLimit_) ∧
    ((c.withdraw a).id_ = c.id_ ∧ (c.withdraw a).name_ = c.name_ ∧
      (c.withdraw a).overdraftLimit_ = c.overdraftLimit_) :=
  ⟨⟨(account_deposit_frame s.toAccount a).1, (account_deposit_frame s.toAccount a).2, rfl⟩,
   ⟨(account_withdraw_frame s.toAccount a).1, (account_withdraw_frame s.toAccount a).2, rfl⟩,
   ⟨rfl, rfl, rfl⟩,
   ⟨(account_deposit_frame c.toAccount a).1, (account_deposit_frame c.toAccount a).2, rfl⟩,
   checking_withdraw_frame c a⟩

/-! ### Allocation behaviour of create_account -/

/-- C10: when allocation fails, `create_account` returns `NULL` and
leaves `account_counter` unchanged; on success it returns an account
holding the given id, the truncated given name, and balance zero, and
advances the counter by one. -/
theorem create_account_alloc_spec (id : Int) (name : List Char) (ctr : Nat) :
    (create_account false id name ctr = (none, ctr)) ∧
    ((create_account true id name ctr).1 =
      some { id := id, name := name.take 49, balance := 0 }) ∧
    ((create_account true id name ctr).2 = ctr + 1) := by
  exact ⟨rfl, rfl, rfl⟩
